import Mathlib

/-!
Verification development for the homebridge-sternet-smart-lan plugin.

The reference behavior is the most complete iteration of the accessory
class `CCTDownlighter` (the iteration that has the `restoreState` flag,
the `connectionTimeout` activity timer and the 15s/20s/30s intervals),
together with `platform.ts`.

JavaScript numbers are modelled as rationals (`Rat`); `Math.floor` is
`Int.floor` and `Math.round x` is `Int.floor (x + 1/2)`, matching the
JS semantics for the nonnegative values that occur here.
-/

namespace SternetSmart

/-- `const lerp = (min, max, n) => (1 - n) * min + n * max`. -/
def lerp (lo hi n : Rat) : Rat := (1 - n) * lo + n * hi

/-- `const clamp = (n, min = 0, max = 1) => Math.min(max, Math.max(min, n))`;
the source always uses the default bounds 0 and 1, which callers here pass
explicitly. -/
def clamp (n lo hi : Rat) : Rat := min hi (max lo n)

/-- `const invlerp = (min, max, n) => clamp((n - min) / (max - min))`. -/
def invlerp (lo hi n : Rat) : Rat := clamp ((n - lo) / (hi - lo)) 0 1

/-- `const interpolate = (inputRange, outputRange, n) =>
lerp(outputRange[0], outputRange[1], invlerp(inputRange[0], inputRange[1], n))`.
The two-element arrays are passed as separate arguments. -/
def interpolate (i0 i1 o0 o1 n : Rat) : Rat := lerp o0 o1 (invlerp i0 i1 n)

/-- `Math.round` on a JS number: round half toward positive infinity. -/
def jsRound (q : Rat) : Int := Int.floor (q + 1 / 2)

/-- The `states` record of the accessory: `On`, `Brightness`,
`ColorTemperature` (mireds). -/
structure AccessoryState where
  On : Bool
  Brightness : Rat
  ColorTemperature : Rat
deriving DecidableEq

/-- Default `states` value: `On: false, Brightness: 100, ColorTemperature: 300`. -/
def defaultState : AccessoryState := { On := false, Brightness := 100, ColorTemperature := 300 }

/-- `const temperatureInKelvin = Math.round(1000000 / this.states.ColorTemperature)`. -/
def temperatureInKelvin (ct : Rat) : Int := jsRound (1000000 / ct)

/-- `const saturation_sct = interpolate([2200, 7000], [0, 100], temperatureInKelvin)`. -/
def saturationSct (ct : Rat) : Rat :=
  interpolate 2200 7000 0 100 ((temperatureInKelvin ct : Int) : Rat)

/-- `const coolValue = Math.floor(saturation_sct * (this.states.Brightness / 100))`. -/
def coolValue (st : AccessoryState) : Int :=
  Int.floor (saturationSct st.ColorTemperature * (st.Brightness / 100))

/-- `const warmValue = Math.floor((100 - saturation_sct) * (this.states.Brightness / 100))`. -/
def warmValue (st : AccessoryState) : Int :=
  Int.floor ((100 - saturationSct st.ColorTemperature) * (st.Brightness / 100))

/-- One lowercase hex digit, as produced by `Number.prototype.toString(16)`. -/
def hexDigit (n : Nat) : Char := if n < 10 then Char.ofNat (48 + n) else Char.ofNat (87 + n)

/-- The digits of `n.toString(16)` for a nonnegative integer `n`. -/
def natToString16 (n : Nat) : List Char :=
  if h : n < 16 then [hexDigit n]
  else natToString16 (n / 16) ++ [hexDigit (n % 16)]
decreasing_by exact Nat.div_lt_self (by omega) (by omega)

/-- `i.toString(16)` for a JS integer, including the sign for negatives. -/
def intToString16 (i : Int) : List Char :=
  if i < 0 then Char.ofNat 45 :: natToString16 i.natAbs else natToString16 i.toNat

/-- `.padStart(2, '0')` on a character list. -/
def padTwo (l : List Char) : List Char := List.replicate (2 - l.length) '0' ++ l

/-- `value.toString(16).padStart(2, '0')` as a string. -/
def hexPad2 (i : Int) : String := String.mk (padTwo (intToString16 i))

/-- `calculateHexValue()` of the reference iteration: black when off,
otherwise the concatenation of "#", coolHexValue, warmHexValue and "00" with both channels
zero-padded to two hex digits. -/
def calculateHexValue (st : AccessoryState) : String :=
  if st.On = false then "#000000"
  else "#" ++ hexPad2 (coolValue st) ++ hexPad2 (warmValue st) ++ "00"

/-! ### Bounds for the interpolated saturation -/

theorem saturationSct_nonneg (ct : Rat) : 0 ≤ saturationSct ct := by
  unfold saturationSct interpolate lerp invlerp clamp
  set x := (((temperatureInKelvin ct : Int) : Rat) - 2200) / (7000 - 2200) with hx
  have h0 : (0 : Rat) ≤ max 0 x := le_max_left _ _
  have h1 : (0 : Rat) ≤ min 1 (max 0 x) := le_min (by norm_num) h0
  nlinarith [h1]

theorem saturationSct_le (ct : Rat) : saturationSct ct ≤ 100 := by
  unfold saturationSct interpolate lerp invlerp clamp
  set x := (((temperatureInKelvin ct : Int) : Rat) - 2200) / (7000 - 2200) with hx
  have h1 : min 1 (max 0 x) ≤ 1 := min_le_left _ _
  nlinarith [h1]

theorem coolValue_bounds (b ct : Rat) (hb0 : 0 ≤ b) (hb1 : b ≤ 100) :
    0 ≤ coolValue { On := true, Brightness := b, ColorTemperature := ct } ∧
      coolValue { On := true, Brightness := b, ColorTemperature := ct } ≤ 100 := by
  have hs0 := saturationSct_nonneg ct
  have hs1 := saturationSct_le ct
  constructor
  · apply Int.floor_nonneg.mpr
    exact mul_nonneg hs0 (by positivity)
  · have harg : saturationSct ct * (b / 100) ≤ 100 := by nlinarith
    calc coolValue { On := true, Brightness := b, ColorTemperature := ct }
        ≤ ⌊(100 : Rat)⌋ := Int.floor_le_floor harg
      _ = 100 := by norm_num

theorem warmValue_bounds (b ct : Rat) (hb0 : 0 ≤ b) (hb1 : b ≤ 100) :
    0 ≤ warmValue { On := true, Brightness := b, ColorTemperature := ct } ∧
      warmValue { On := true, Brightness := b, ColorTemperature := ct } ≤ 100 := by
  have hs0 := saturationSct_nonneg ct
  have hs1 := saturationSct_le ct
  constructor
  · apply Int.floor_nonneg.mpr
    have : (0 : Rat) ≤ 100 - saturationSct ct := by linarith
    exact mul_nonneg this (by positivity)
  · have harg : (100 - saturationSct ct) * (b / 100) ≤ 100 := by nlinarith
    calc warmValue { On := true, Brightness := b, ColorTemperature := ct }
        ≤ ⌊(100 : Rat)⌋ := Int.floor_le_floor harg
      _ = 100 := by norm_num

/-! ### Hex encoding lemmas -/

theorem natToString16_of_lt (n : Nat) (h : n < 16) : natToString16 n = [hexDigit n] := by
  rw [natToString16]
  simp [h]

theorem natToString16_two (n : Nat) (h16 : 16 ≤ n) (h : n < 256) :
    natToString16 n = [hexDigit (n / 16), hexDigit (n % 16)] := by
  rw [natToString16]
  have h' : ¬ n < 16 := by omega
  simp only [h', dif_neg, not_false_iff]
  rw [natToString16_of_lt (n / 16) (by omega)]
  rfl

theorem hexPad2_length (i : Int) (h0 : 0 ≤ i) (h : i ≤ 255) : (hexPad2 i).length = 2 := by
  have hneg : ¬ i < 0 := by omega
  unfold hexPad2 intToString16
  rw [if_neg hneg]
  rcases Nat.lt_or_ge i.toNat 16 with h16 | h16
  · rw [natToString16_of_lt _ h16]
    simp [padTwo, String.length]
  · rw [natToString16_two _ h16 (by omega)]
    simp [padTwo, String.length]

/-- C6: for every DesiredState with `on = true`, brightness in `[0, 100]` and
positive mireds, both channel intensities lie in `[0, 100]`, and the wire frame
is exactly the 7-character string: "#", the cool value as 2-digit zero-padded
hex, the warm value as 2-digit zero-padded hex, then the literal `"00"`. -/
theorem C6_frame_shape (b ct : Rat) (hb0 : 0 ≤ b) (hb1 : b ≤ 100) (hct : 0 < ct) :
    0 ≤ coolValue { On := true, Brightness := b, ColorTemperature := ct } ∧
    coolValue { On := true, Brightness := b, ColorTemperature := ct } ≤ 100 ∧
    0 ≤ warmValue { On := true, Brightness := b, ColorTemperature := ct } ∧
    warmValue { On := true, Brightness := b, ColorTemperature := ct } ≤ 100 ∧
    calculateHexValue { On := true, Brightness := b, ColorTemperature := ct } =
      "#" ++ hexPad2 (coolValue { On := true, Brightness := b, ColorTemperature := ct })
        ++ hexPad2 (warmValue { On := true, Brightness := b, ColorTemperature := ct })
        ++ "00" ∧
    (hexPad2 (coolValue { On := true, Brightness := b, ColorTemperature := ct })).length = 2 ∧
    (hexPad2 (warmValue { On := true, Brightness := b, ColorTemperature := ct })).length = 2 ∧
    (calculateHexValue { On := true, Brightness := b, ColorTemperature := ct }).length = 7 := by
  obtain ⟨hc0, hc1⟩ := coolValue_bounds b ct hb0 hb1
  obtain ⟨hw0, hw1⟩ := warmValue_bounds b ct hb0 hb1
  have hframe : calculateHexValue { On := true, Brightness := b, ColorTemperature := ct } =
      "#" ++ hexPad2 (coolValue { On := true, Brightness := b, ColorTemperature := ct })
        ++ hexPad2 (warmValue { On := true, Brightness := b, ColorTemperature := ct })
        ++ "00" := by
    unfold calculateHexValue
    rfl
  have hlc : (hexPad2 (coolValue { On := true, Brightness := b, ColorTemperature := ct })).length = 2 :=
    hexPad2_length _ hc0 (by omega)
  have hlw : (hexPad2 (warmValue { On := true, Brightness := b, ColorTemperature := ct })).length = 2 :=
    hexPad2_length _ hw0 (by omega)
  refine ⟨hc0, hc1, hw0, hw1, hframe, hlc, hlw, ?_⟩
  rw [hframe]
  simp only [String.length_append, hlc, hlw]
  rfl

/-- Witness for C6 at the spec scenario brightness 50, 300 mireds; the
resulting frame is the concrete string `"#0b2600"`. -/
theorem C6_frame_shape_witness :
    (0 ≤ coolValue { On := true, Brightness := 50, ColorTemperature := 300 } ∧
     coolValue { On := true, Brightness := 50, ColorTemperature := 300 } ≤ 100 ∧
     0 ≤ warmValue { On := true, Brightness := 50, ColorTemperature := 300 } ∧
     warmValue { On := true, Brightness := 50, ColorTemperature := 300 } ≤ 100 ∧
     calculateHexValue { On := true, Brightness := 50, ColorTemperature := 300 } =
       "#" ++ hexPad2 (coolValue { On := true, Brightness := 50, ColorTemperature := 300 })
         ++ hexPad2 (warmValue { On := true, Brightness := 50, ColorTemperature := 300 })
         ++ "00" ∧
     (hexPad2 (coolValue { On := true, Brightness := 50, ColorTemperature := 300 })).length = 2 ∧
     (hexPad2 (warmValue { On := true, Brightness := 50, ColorTemperature := 300 })).length = 2 ∧
     (calculateHexValue { On := true, Brightness := 50, ColorTemperature := 300 }).length = 7) ∧
    calculateHexValue { On := true, Brightness := 50, ColorTemperature := 300 } = "#0b2600" := by
  constructor
  · exact C6_frame_shape 50 300 (by norm_num) (by norm_num) (by norm_num)
  · have hk : temperatureInKelvin 300 = 3333 := by
      unfold temperatureInKelvin jsRound
      norm_num
    have hs : saturationSct 300 = 1133 / 48 := by
      unfold saturationSct interpolate lerp invlerp clamp
      rw [hk]
      norm_num [min_def, max_def]
    have hc : coolValue { On := true, Brightness := 50, ColorTemperature := 300 } = 11 := by
      unfold coolValue
      rw [hs]
      norm_num
    have hw : warmValue { On := true, Brightness := 50, ColorTemperature := 300 } = 38 := by
      unfold warmValue
      rw [hs]
      norm_num
    unfold calculateHexValue
    rw [if_neg (by simp)]
    rw [hc, hw]
    have h11 : hexPad2 11 = "0b" := by
      unfold hexPad2 intToString16
      rw [if_neg (by omega)]
      show String.mk (padTwo (natToString16 11)) = "0b"
      rw [natToString16_of_lt 11 (by omega)]
      rfl
    have h38 : hexPad2 38 = "26" := by
      unfold hexPad2 intToString16
      rw [if_neg (by omega)]
      show String.mk (padTwo (natToString16 38)) = "26"
      rw [natToString16_two 38 (by omega) (by omega)]
      rfl
    rw [h11, h38]
    rfl

/-- C7: the Kelvin-to-saturation mapping is a clamped linear interpolation on
`[2200, 7000]`: whenever the derived Kelvin value `round(1000000 / mireds)` is
at most 2200 the cool intensity is 0, whenever it is at least 7000 the warm
intensity is 0, and the saturation always stays inside `[0, 100]` (no
extrapolation outside the input range). -/
theorem C7_clamped_interpolation (b ct : Rat) (hct : 0 < ct) :
    (temperatureInKelvin ct ≤ 2200 →
      coolValue { On := true, Brightness := b, ColorTemperature := ct } = 0) ∧
    (7000 ≤ temperatureInKelvin ct →
      warmValue { On := true, Brightness := b, ColorTemperature := ct } = 0) ∧
    0 ≤ saturationSct ct ∧ saturationSct ct ≤ 100 := by
  refine ⟨?_, ?_, saturationSct_nonneg ct, saturationSct_le ct⟩
  · intro hk
    have hsat : saturationSct ct = 0 := by
      unfold saturationSct interpolate lerp invlerp clamp
      have hkq : ((temperatureInKelvin ct : Int) : Rat) ≤ 2200 := by exact_mod_cast hk
      have hx : (((temperatureInKelvin ct : Int) : Rat) - 2200) / (7000 - 2200) ≤ 0 := by
        apply div_nonpos_of_nonpos_of_nonneg <;> linarith
      rw [max_eq_left hx, min_eq_right (by norm_num : (0:Rat) ≤ 1)]
      ring
    unfold coolValue
    rw [hsat]
    simp
  · intro hk
    have hsat : saturationSct ct = 100 := by
      unfold saturationSct interpolate lerp invlerp clamp
      have hkq : (7000 : Rat) ≤ ((temperatureInKelvin ct : Int) : Rat) := by exact_mod_cast hk
      have hx : (1 : Rat) ≤ (((temperatureInKelvin ct : Int) : Rat) - 2200) / (7000 - 2200) := by
        rw [le_div_iff₀ (by norm_num)]
        linarith
      have hmax : max (0:Rat) ((((temperatureInKelvin ct : Int) : Rat) - 2200) / (7000 - 2200)) =
          (((temperatureInKelvin ct : Int) : Rat) - 2200) / (7000 - 2200) :=
        max_eq_right (by linarith)
      rw [hmax, min_eq_left hx]
      ring
    unfold warmValue
    rw [hsat]
    simp

/-- Witness for C7 at 455 mireds (the warm end of the HomeKit range): the
derived Kelvin value 2198 is at most 2200 and the cool channel is 0. -/
theorem C7_clamped_interpolation_witness :
    ((temperatureInKelvin 455 ≤ 2200 →
       coolValue { On := true, Brightness := 100, ColorTemperature := 455 } = 0) ∧
     (7000 ≤ temperatureInKelvin 455 →
       warmValue { On := true, Brightness := 100, ColorTemperature := 455 } = 0) ∧
     0 ≤ saturationSct 455 ∧ saturationSct 455 ≤ 100) ∧
    coolValue { On := true, Brightness := 100, ColorTemperature := 455 } = 0 := by
  have h := C7_clamped_interpolation 100 455 (by norm_num)
  refine ⟨h, h.1 ?_⟩
  unfold temperatureInKelvin jsRound
  norm_num

/-! ### JSON values and inbound frames

An inbound WebSocket frame either fails `JSON.parse` (modelled as `none`)
or parses to a JSON value. -/

/-- A JSON value as produced by `JSON.parse`. -/
inductive Json where
  | null : Json
  | bool (b : Bool) : Json
  | num (q : Rat) : Json
  | str (s : String) : Json
  | arr (elems : List Json) : Json
  | obj (fields : List (String × Json)) : Json

/-- The JS membership test (the `in` operator, for a key and an object built by `JSON.parse`). -/
def objHasKey (fields : List (String × Json)) (k : String) : Bool :=
  fields.any (fun p => p.1 == k)

/-- Property read `obj[k]` on an object built by `JSON.parse`; with duplicate
keys the last occurrence wins. -/
def objGet (fields : List (String × Json)) (k : String) : Option Json :=
  (fields.reverse.find? (fun p => p.1 == k)).map (fun p => p.2)

/-- The status discriminator of the message handler:
the conjunction of the `in` membership tests for `hostname`, `mac` and `firmwareVersion` on the parsed response.
The JS `in` operator only applies to objects and arrays; arrays from
`JSON.parse` never carry these keys, so only objects can qualify. -/
def isStatusResponse (v : Json) : Bool :=
  match v with
  | Json.obj fields =>
      objHasKey fields "hostname" && objHasKey fields "mac" &&
        objHasKey fields "firmwareVersion"
  | _ => false

/-- `true` for JSON values on which the JS `in` operator throws a `TypeError`
(everything except objects and arrays). -/
def jsonPrimitive (v : Json) : Bool :=
  match v with
  | Json.obj _ => false
  | Json.arr _ => false
  | _ => true

/-! ### Timers

Each `setTimeout` / `setInterval` call creates a timer with a fresh id; ids
are never reused. `clearTimeout` / `clearInterval` remove the timer from the
pending set and are no-ops on already-fired or already-cleared timers,
matching Node semantics. -/

/-- Which of the three timer fields a pending timer belongs to. -/
inductive TimerKind where
  | reconnect : TimerKind
  | statusCheck : TimerKind
  | connectionTimeout : TimerKind
deriving DecidableEq

/-- The set of pending timers in the runtime plus the fresh-id counter. -/
structure TimerSys where
  nextId : Nat
  live : List (Nat × TimerKind)
deriving DecidableEq

/-- `setTimeout`/`setInterval`: a new pending timer with id `t.nextId`. -/
def TimerSys.add (t : TimerSys) (k : TimerKind) : TimerSys :=
  { nextId := t.nextId + 1, live := (t.nextId, k) :: t.live }

/-- `clearTimeout`/`clearInterval` on the handle with id `id`. -/
def TimerSys.clear (t : TimerSys) (id : Nat) : TimerSys :=
  { nextId := t.nextId, live := t.live.filter (fun p => p.1 != id) }

/-- The readyState of the WebSocket object held in `this.ws`
(`CLOSING` is collapsed into `closed`; only `OPEN` enables sends). -/
inductive WsReady where
  | connecting : WsReady
  | opened : WsReady
  | closed : WsReady
deriving DecidableEq

/-- A value pushed to the hub-visible `On` characteristic: either a boolean or the
synthesized not-responding `Error`. -/
inductive CharPush where
  | val (b : Bool) : CharPush
  | notResponding : CharPush
deriving DecidableEq

/-- The mutable state of one `CCTDownlighter` accessory (reference
iteration), together with the runtime timer set, the log of frames handed to
`ws.send`, and a ghost `destroyed` flag recording whether `destroy()` has run
(the flag is written only by `destroy` and read by nothing). -/
structure CCT where
  ws : Option WsReady
  reconnectInterval : Option Nat
  statusCheckInterval : Option Nat
  connectionTimeout : Option Nat
  isOnline : Bool
  restoreState : Bool
  states : AccessoryState
  contextState : AccessoryState
  lastStatus : Option Json
  onChar : Option CharPush
  nameChar : Option Json
  manufacturer : Option Json
  model : Option Json
  serialNumber : Option Json
  firmwareRevision : Option Json
  sent : List String
  timers : TimerSys
  destroyed : Bool

/-- The stringified status query object (cmd set to STATUS). -/
def statusRequest : String := "\x7b\"cmd\":\"STATUS\"\x7d"

/-- `sendMessage(message)`: hand the string to `ws.send` only when the
socket exists and its readyState is `OPEN`. -/
def sendMessage (msg : String) (s : CCT) : CCT :=
  if s.ws = some WsReady.opened then { s with sent := s.sent ++ [msg] } else s

/-- `sendState()`: return early unless `isOnline`, otherwise send the
current hex frame. -/
def sendState (s : CCT) : CCT :=
  if s.isOnline = false then s else sendMessage (calculateHexValue s.states) s

/-- `checkStatus()`: send the status query. -/
def checkStatus (s : CCT) : CCT := sendMessage statusRequest s

/-- `saveState()`: write `this.states` into `accessory.context.state`. -/
def saveState (s : CCT) : CCT := { s with contextState := s.states }

/-- `updateNotResponding()`: push the synthesized error on the `On`
characteristic. -/
def updateNotResponding (s : CCT) : CCT := { s with onChar := some CharPush.notResponding }

/-- `scheduleReconnect()`: start the reconnect interval only when none is
recorded (re-entrant attempts are suppressed). -/
def scheduleReconnect (s : CCT) : CCT :=
  match s.reconnectInterval with
  | some _ => s
  | none => { s with timers := s.timers.add TimerKind.reconnect,
                     reconnectInterval := some s.timers.nextId }

/-- `scheduleConnectionTimeout()`: clear any recorded activity timeout, then
arm a fresh one. -/
def scheduleConnectionTimeout (s : CCT) : CCT :=
  let s1 := match s.connectionTimeout with
    | some id => { s with timers := s.timers.clear id, connectionTimeout := none }
    | none => s
  { s1 with timers := s1.timers.add TimerKind.connectionTimeout,
            connectionTimeout := some s1.timers.nextId }

/-- `handleDisconnection()`: mark offline, stop the status poll, surface
"not responding", schedule a reconnect. -/
def handleDisconnection (s : CCT) : CCT :=
  let s1 := { s with isOnline := false }
  let s2 := match s1.statusCheckInterval with
    | some id => { s1 with timers := s1.timers.clear id, statusCheckInterval := none }
    | none => s1
  scheduleReconnect (updateNotResponding s2)

/-- `connectWebSocket()`: close the previous socket if any and construct a
new one; `ok = false` models the `new WebSocket` constructor throwing, in
which case `this.ws` is not reassigned and `handleDisconnection()` runs. -/
def connectWebSocket (ok : Bool) (s : CCT) : CCT :=
  let s1 := match s.ws with
    | some _ => { s with ws := some WsReady.closed }
    | none => s
  if ok then { s1 with ws := some WsReady.connecting } else handleDisconnection s1

/-- The handler of the `open` socket event (the socket just became `OPEN`): cancel
the reconnect interval, restart the status poll, set `isOnline`, push the
current state when `restoreState` is set, refresh the `On` characteristic,
arm the activity timeout. -/
def openEffect (s : CCT) : CCT :=
  let s0 := { s with ws := some WsReady.opened }
  let s1 := match s0.reconnectInterval with
    | some id => { s0 with timers := s0.timers.clear id, reconnectInterval := none }
    | none => s0
  let s2 := match s1.statusCheckInterval with
    | some id => { s1 with timers := s1.timers.clear id }
    | none => s1
  let s3 := { s2 with timers := s2.timers.add TimerKind.statusCheck,
                      statusCheckInterval := some s2.timers.nextId }
  let s4 := { s3 with isOnline := true }
  let s5 := if s4.restoreState then sendState s4 else s4
  let s6 := { s5 with onChar := some (CharPush.val s5.states.On) }
  scheduleConnectionTimeout s6

/-- Whether the `toString()` call on the `firmwareVersion` property throws
a `TypeError`: in JS the call throws exactly when its receiver is `null`
(a JSON null value) or `undefined` (the key absent — unreachable after the
status discriminator); every other JSON value (boolean, number, string,
array, object) has a `toString` method. -/
def firmwareToStringThrows (fields : List (String × Json)) : Bool :=
  match objGet fields "firmwareVersion" with
  | some Json.null => true
  | none => true
  | some _ => false

/-- `updateAccessoryInfo(status)`: its second statement computes the
`toString()` of `status.firmwareVersion`, which throws — modelled as
`none` — before any write when that value is JSON null; otherwise it sets
the manufacturer/model constants, copies `status.mac` to the serial
number, the `firmwareVersion` value to the firmware revision and
`status.hostname` to the service name, and caches the status. The source
wraps each write in an are-they-different check, which does not change the
resulting values; the firmware value is stored here before the
`toString()` applied for display. -/
def updateAccessoryInfo (fields : List (String × Json)) (s : CCT) : Option CCT :=
  if firmwareToStringThrows fields then none
  else some { s with manufacturer := some (Json.str "Sternet Smart"),
                     model := some (Json.str "CCT Downlighter"),
                     serialNumber := objGet fields "mac",
                     firmwareRevision := objGet fields "firmwareVersion",
                     nameChar := objGet fields "hostname",
                     lastStatus := some (Json.obj fields) }

/-- The handler of the `message` socket event. A frame that fails `JSON.parse`
throws before anything runs; a frame whose parse result is a primitive makes
the `hostname` membership test throw; and a status-classified frame whose
`firmwareVersion` value is JSON null makes `updateAccessoryInfo` throw
before any write. All three throws are swallowed by the same surrounding
`catch`, so the `isOnline` flip and `scheduleConnectionTimeout()` — which
sit inside the `try` block, after the status update — run only when
nothing threw. -/
def messageEffect (f : Option Json) (s : CCT) : CCT :=
  match f with
  | none => s
  | some v =>
    match v with
    | Json.obj fields =>
        if objHasKey fields "hostname" && objHasKey fields "mac" &&
            objHasKey fields "firmwareVersion" then
          match updateAccessoryInfo fields s with
          | none => s
          | some s1 =>
            let s2 := if s1.isOnline = false then
                { s1 with isOnline := true, onChar := some (CharPush.val s1.states.On) }
              else s1
            scheduleConnectionTimeout s2
        else scheduleConnectionTimeout s
    | Json.arr _ => scheduleConnectionTimeout s
    | _ => s

/-- The `connectionTimeout` handler body: `ws?.terminate()` then
`handleDisconnection()` (the fired timer itself was consumed by the
runtime before the handler ran). -/
def connectionTimeoutHandler (s : CCT) : CCT :=
  let s1 := match s.ws with
    | some _ => { s with ws := some WsReady.closed }
    | none => s
  handleDisconnection s1

/-- `setOn(value)`: mutate, persist, and — only when `isOnline` — send the
state and refresh the `On` characteristic. -/
def setOnEffect (v : Bool) (s : CCT) : CCT :=
  let s1 := saveState { s with states := { s.states with On := v } }
  if s1.isOnline then
    let s2 := sendState s1
    { s2 with onChar := some (CharPush.val s2.states.On) }
  else s1

/-- `setBrightness(value)`: mutate, persist, send only when `isOnline`. -/
def setBrightnessEffect (v : Rat) (s : CCT) : CCT :=
  let s1 := saveState { s with states := { s.states with Brightness := v } }
  if s1.isOnline then sendState s1 else s1

/-- `setColorTemperature(value)`: mutate, persist, send only when `isOnline`. -/
def setColorTemperatureEffect (v : Rat) (s : CCT) : CCT :=
  let s1 := saveState { s with states := { s.states with ColorTemperature := v } }
  if s1.isOnline then sendState s1 else s1

/-- `destroy()`: close the socket if any and clear the reconnect and
status-poll timers if recorded. The `connectionTimeout` field is not
touched, and no field is set back to `null`. The ghost `destroyed` flag is
set for bookkeeping. -/
def destroyEffect (s : CCT) : CCT :=
  let s1 := match s.ws with
    | some _ => { s with ws := some WsReady.closed }
    | none => s
  let s2 := match s1.reconnectInterval with
    | some id => { s1 with timers := s1.timers.clear id }
    | none => s1
  let s3 := match s2.statusCheckInterval with
    | some id => { s2 with timers := s2.timers.clear id }
    | none => s2
  { s3 with destroyed := true }

/-- The asynchronous events an accessory instance can receive: transport
callbacks, timer firings, hub set-requests and teardown. -/
inductive Event where
  | wsOpen : Event
  | wsMessage (f : Option Json) : Event
  | wsClose : Event
  | wsError : Event
  | reconnectTick (ok : Bool) : Event
  | statusTick : Event
  | timeoutFire : Event
  | setOn (v : Bool) : Event
  | setBrightness (v : Rat) : Event
  | setColorTemperature (v : Rat) : Event
  | destroy : Event

/-- One step of the event-driven accessory: `none` when the event cannot
occur in the given state (e.g. a timer fires only while pending; transport
callbacks need a socket in the right state). `wsError` is modelled like
`wsClose` because in the `ws` library an error event terminates the socket
and is followed by a close. -/
def stepFn (e : Event) (s : CCT) : Option CCT :=
  match e with
  | Event.wsOpen =>
      if s.ws = some WsReady.connecting then some (openEffect s) else none
  | Event.wsMessage f =>
      if s.ws = some WsReady.opened then some (messageEffect f s) else none
  | Event.wsClose =>
      match s.ws with
      | some _ => some (handleDisconnection { s with ws := some WsReady.closed })
      | none => none
  | Event.wsError =>
      match s.ws with
      | some _ => some (handleDisconnection { s with ws := some WsReady.closed })
      | none => none
  | Event.reconnectTick ok =>
      match s.reconnectInterval with
      | some id =>
          if (id, TimerKind.reconnect) ∈ s.timers.live then some (connectWebSocket ok s)
          else none
      | none => none
  | Event.statusTick =>
      match s.statusCheckInterval with
      | some id =>
          if (id, TimerKind.statusCheck) ∈ s.timers.live then some (checkStatus s) else none
      | none => none
  | Event.timeoutFire =>
      match s.connectionTimeout with
      | some id =>
          if (id, TimerKind.connectionTimeout) ∈ s.timers.live then
            some (connectionTimeoutHandler { s with timers := s.timers.clear id })
          else none
      | none => none
  | Event.setOn v => some (setOnEffect v s)
  | Event.setBrightness v => some (setBrightnessEffect v s)
  | Event.setColorTemperature v => some (setColorTemperatureEffect v s)
  | Event.destroy => some (destroyEffect s)

/-- The state right after the constructor body: read `restore_state`, load
the cached state (writing defaults back when absent), register handlers,
`connectWebSocket()`, `updateNotResponding()`. -/
def initState (rs : Bool) (cached : Option AccessoryState) (ok : Bool) : CCT :=
  let st := cached.getD defaultState
  let s0 : CCT := {
    ws := none, reconnectInterval := none, statusCheckInterval := none,
    connectionTimeout := none, isOnline := false, restoreState := rs,
    states := st, contextState := st, lastStatus := none, onChar := none,
    nameChar := none, manufacturer := none, model := none, serialNumber := none,
    firmwareRevision := none, sent := [], timers := { nextId := 0, live := [] },
    destroyed := false }
  updateNotResponding (connectWebSocket ok s0)

/-- The states one accessory instance can reach through any interleaving of
events after construction. -/
inductive Reachable : CCT → Prop where
  | init (rs : Bool) (cached : Option AccessoryState) (ok : Bool) :
      Reachable (initState rs cached ok)
  | step (s : CCT) (e : Event) (s' : CCT) :
      Reachable s → stepFn e s = some s' → Reachable s'

/-! ### The timer / liveness invariant -/

/-- Number of pending timers of a given kind. -/
def timerCount (s : CCT) (k : TimerKind) : Nat :=
  (s.timers.live.filter (fun p => decide (p.2 = k))).length

/-- The timer handle field of the accessory that belongs to a timer kind. -/
def fieldOf (s : CCT) (k : TimerKind) : Option Nat :=
  match k with
  | TimerKind.reconnect => s.reconnectInterval
  | TimerKind.statusCheck => s.statusCheckInterval
  | TimerKind.connectionTimeout => s.connectionTimeout

/-- Well-formedness of a timer system with respect to the handle fields:
pending ids are fresh and distinct, every pending timer is recorded in the
field of its kind, and each field only ever refers to an id created for a
timer of that kind. -/
structure TInv (t : TimerSys) (fld : TimerKind → Option Nat) : Prop where
  fresh : ∀ p ∈ t.live, p.1 < t.nextId
  nodup : (t.live.map Prod.fst).Nodup
  track : ∀ p ∈ t.live, fld p.2 = some p.1
  kindOf : ∀ k id, fld k = some id → ∀ p ∈ t.live, p.1 = id → p.2 = k
  fieldLt : ∀ k id, fld k = some id → id < t.nextId

/-- Invariant of every reachable accessory state: the timer system is
well-formed for the three handle fields; no pending reconnect timer coexists
with an open socket or with `isOnline`; and `isOnline` implies the socket is
open unless `destroy()` already ran. -/
structure Inv (s : CCT) : Prop where
  tinv : TInv s.timers (fieldOf s)
  noRecWhenOpen : s.ws = some WsReady.opened → ∀ id, s.reconnectInterval = some id →
      (id, TimerKind.reconnect) ∉ s.timers.live
  recOffline : ∀ id, s.reconnectInterval = some id →
      (id, TimerKind.reconnect) ∈ s.timers.live → s.isOnline = false
  onlineWs : s.isOnline = true → s.destroyed = true ∨ s.ws = some WsReady.opened

theorem mem_clear (t : TimerSys) (id : Nat) (p : Nat × TimerKind) :
    p ∈ (t.clear id).live ↔ p ∈ t.live ∧ p.1 ≠ id := by
  simp [TimerSys.clear, List.mem_filter]

/-- Pointwise update of a field map. -/
def updateFld (fld : TimerKind → Option Nat) (k : TimerKind) (v : Option Nat) :
    TimerKind → Option Nat :=
  fun j => if j = k then v else fld j

theorem TInv.congr {t : TimerSys} {fld fld' : TimerKind → Option Nat}
    (hf : ∀ k, fld k = fld' k) (h : TInv t fld) : TInv t fld' where
  fresh := h.fresh
  nodup := h.nodup
  track := fun p hp => (hf p.2) ▸ h.track p hp
  kindOf := fun k id hfk => h.kindOf k id ((hf k) ▸ hfk)
  fieldLt := fun k id hfk => h.fieldLt k id ((hf k) ▸ hfk)

theorem TInv.clear_any {t : TimerSys} {fld : TimerKind → Option Nat}
    (id : Nat) (h : TInv t fld) : TInv (t.clear id) fld where
  fresh := fun p hp => h.fresh p ((mem_clear t id p).1 hp).1
  nodup := (((List.filter_sublist _).map Prod.fst).nodup h.nodup)
  track := fun p hp => h.track p ((mem_clear t id p).1 hp).1
  kindOf := fun k i hfk p hp => h.kindOf k i hfk p ((mem_clear t id p).1 hp).1
  fieldLt := h.fieldLt

theorem TInv.clear_field {t : TimerSys} {fld : TimerKind → Option Nat} {k : TimerKind}
    {c : Nat} (hf : fld k = some c) (h : TInv t fld) :
    TInv (t.clear c) (updateFld fld k none) where
  fresh := fun p hp => h.fresh p ((mem_clear t c p).1 hp).1
  nodup := (((List.filter_sublist _).map Prod.fst).nodup h.nodup)
  track := by
    intro p hp
    obtain ⟨hmem, hne⟩ := (mem_clear t c p).1 hp
    have htr := h.track p hmem
    have hpk : p.2 ≠ k := by
      intro hk
      rw [hk, hf] at htr
      exact hne (Option.some.inj htr).symm
    simpa [updateFld, hpk] using htr
  kindOf := by
    intro j i hfj p hp hpi
    obtain ⟨hmem, hne⟩ := (mem_clear t c p).1 hp
    by_cases hjk : j = k
    · simp [updateFld, hjk] at hfj
    · simp only [updateFld, if_neg hjk] at hfj
      exact h.kindOf j i hfj p hmem hpi
  fieldLt := by
    intro j i hfj
    by_cases hjk : j = k
    · simp [updateFld, hjk] at hfj
    · simp only [updateFld, if_neg hjk] at hfj
      exact h.fieldLt j i hfj

theorem TInv.no_live_of_none {t : TimerSys} {fld : TimerKind → Option Nat} {k : TimerKind}
    (hf : fld k = none) (h : TInv t fld) : ∀ p ∈ t.live, p.2 ≠ k := by
  intro p hp hk
  have := h.track p hp
  rw [hk, hf] at this
  exact Option.noConfusion this

theorem TInv.no_live_after_clear {t : TimerSys} {fld : TimerKind → Option Nat} {k : TimerKind}
    {c : Nat} (hf : fld k = some c) (h : TInv t fld) :
    ∀ p ∈ (t.clear c).live, p.2 ≠ k := by
  intro p hp hk
  obtain ⟨hmem, hne⟩ := (mem_clear t c p).1 hp
  have := h.track p hmem
  rw [hk, hf] at this
  exact hne (Option.some.inj this).symm

theorem TInv.add_field_cleared {t : TimerSys} {fld : TimerKind → Option Nat} {k : TimerKind}
    (hnone : ∀ p ∈ t.live, p.2 ≠ k) (h : TInv t fld) :
    TInv (t.add k) (updateFld fld k (some t.nextId)) where
  fresh := by
    intro p hp
    simp only [TimerSys.add, List.mem_cons] at hp
    rcases hp with hp | hp
    · rw [hp]
      show t.nextId < t.nextId + 1
      omega
    · have := h.fresh p hp
      show p.1 < t.nextId + 1
      omega
  nodup := by
    simp only [TimerSys.add, List.map_cons, List.nodup_cons]
    refine ⟨?_, h.nodup⟩
    intro hmem
    obtain ⟨p, hp, hfst⟩ := List.mem_map.1 hmem
    have := h.fresh p hp
    omega
  track := by
    intro p hp
    simp only [TimerSys.add, List.mem_cons] at hp
    rcases hp with hp | hp
    · rw [hp]
      simp [updateFld]
    · have htr := h.track p hp
      have hpk : p.2 ≠ k := hnone p hp
      simpa [updateFld, hpk] using htr
  kindOf := by
    intro j i hfj p hp hpi
    simp only [TimerSys.add, List.mem_cons] at hp
    by_cases hjk : j = k
    · subst hjk
      simp [updateFld] at hfj
      rcases hp with hp | hp
      · rw [hp]
      · exfalso
        have := h.fresh p hp
        omega
    · simp only [updateFld, if_neg hjk] at hfj
      rcases hp with hp | hp
      · exfalso
        have := h.fieldLt j i hfj
        rw [hp] at hpi
        simp at hpi
        omega
      · exact h.kindOf j i hfj p hp hpi
  fieldLt := by
    intro j i hfj
    show i < t.nextId + 1
    by_cases hjk : j = k
    · subst hjk
      simp [updateFld] at hfj
      omega
    · simp only [updateFld, if_neg hjk] at hfj
      have := h.fieldLt j i hfj
      omega

theorem TInv.add_field {t : TimerSys} {fld : TimerKind → Option Nat} {k : TimerKind}
    (hf : fld k = none) (h : TInv t fld) :
    TInv (t.add k) (updateFld fld k (some t.nextId)) :=
  h.add_field_cleared (h.no_live_of_none hf)

theorem filter_kind_len_le_one (l : List (Nat × TimerKind)) (k : TimerKind) (c : Nat)
    (hnd : (l.map Prod.fst).Nodup)
    (h : ∀ p ∈ l, p.2 = k → p.1 = c) :
    (l.filter (fun p => decide (p.2 = k))).length ≤ 1 := by
  induction l with
  | nil => simp
  | cons a t ih =>
    simp only [List.map_cons, List.nodup_cons] at hnd
    obtain ⟨ha, hndt⟩ := hnd
    by_cases hk : a.2 = k
    · have hfilt : t.filter (fun p => decide (p.2 = k)) = [] := by
        rw [List.filter_eq_nil_iff]
        intro p hp
        simp only [decide_eq_true_eq]
        intro hpk
        have hpc : p.1 = c := h p (List.mem_cons_of_mem a hp) hpk
        have hac : a.1 = c := h a (List.mem_cons_self a t) hk
        apply ha
        have hap : a.1 = p.1 := by rw [hac, hpc]
        rw [hap]
        exact List.mem_map_of_mem Prod.fst hp
      simp [List.filter_cons, hk, hfilt]
    · have := ih hndt (fun p hp hpk => h p (List.mem_cons_of_mem a hp) hpk)
      simpa [List.filter_cons, hk] using this

/-- States that agree on everything the invariant mentions. -/
def sameCore (s s' : CCT) : Prop :=
  s'.timers = s.timers ∧ s'.reconnectInterval = s.reconnectInterval ∧
  s'.statusCheckInterval = s.statusCheckInterval ∧
  s'.connectionTimeout = s.connectionTimeout ∧ s'.ws = s.ws ∧
  s'.isOnline = s.isOnline ∧ s'.destroyed = s.destroyed

theorem Inv.of_sameCore {s s' : CCT} (h : sameCore s s') (hi : Inv s) : Inv s' := by
  obtain ⟨ht, hr, hs, hc, hw, ho, hd⟩ := h
  refine {
    tinv := ht ▸ (hi.tinv.congr ?_)
    noRecWhenOpen := by rw [ht, hr, hw]; exact hi.noRecWhenOpen
    recOffline := by rw [ht, hr, ho]; exact hi.recOffline
    onlineWs := by rw [ho, hd, hw]; exact hi.onlineWs }
  intro k
  cases k <;> simp [fieldOf, hr, hs, hc]

theorem sameCore_trans {s t u : CCT} (h1 : sameCore s t) (h2 : sameCore t u) : sameCore s u := by
  obtain ⟨a1, a2, a3, a4, a5, a6, a7⟩ := h1
  obtain ⟨b1, b2, b3, b4, b5, b6, b7⟩ := h2
  exact ⟨b1.trans a1, b2.trans a2, b3.trans a3, b4.trans a4, b5.trans a5, b6.trans a6, b7.trans a7⟩

theorem sameCore_sendMessage (msg : String) (s : CCT) : sameCore s (sendMessage msg s) := by
  unfold sendMessage
  split <;> exact ⟨rfl, rfl, rfl, rfl, rfl, rfl, rfl⟩

theorem sameCore_sendState (s : CCT) : sameCore s (sendState s) := by
  unfold sendState
  split
  · exact ⟨rfl, rfl, rfl, rfl, rfl, rfl, rfl⟩
  · exact sameCore_sendMessage _ s

theorem sameCore_saveState (s : CCT) : sameCore s (saveState s) :=
  ⟨rfl, rfl, rfl, rfl, rfl, rfl, rfl⟩

theorem sameCore_updateNotResponding (s : CCT) : sameCore s (updateNotResponding s) :=
  ⟨rfl, rfl, rfl, rfl, rfl, rfl, rfl⟩

theorem sameCore_updateAccessoryInfo {fields : List (String × Json)} {s s1 : CCT}
    (h : updateAccessoryInfo fields s = some s1) : sameCore s s1 := by
  unfold updateAccessoryInfo at h
  split at h
  · exact Option.noConfusion h
  · obtain rfl := Option.some.inj h
    exact ⟨rfl, rfl, rfl, rfl, rfl, rfl, rfl⟩

theorem sameCore_checkStatus (s : CCT) : sameCore s (checkStatus s) :=
  sameCore_sendMessage _ s

/-! ### Invariant preservation for each effect -/

theorem Inv_scheduleConnectionTimeout {s : CCT} (hi : Inv s) : Inv (scheduleConnectionTimeout s) := by
  cases hct : s.connectionTimeout with
  | none =>
    simp only [scheduleConnectionTimeout, hct]
    refine { tinv := ?_, noRecWhenOpen := ?_, recOffline := ?_, onlineWs := hi.onlineWs }
    · have h1 := hi.tinv.add_field (k := TimerKind.connectionTimeout)
        (by simp [fieldOf, hct])
      refine h1.congr ?_
      intro k
      cases k <;> simp [fieldOf, updateFld]
    · intro hws id hrec hmem
      simp only [TimerSys.add, List.mem_cons] at hmem
      rcases hmem with hmem | hmem
      · exact absurd (congrArg Prod.snd hmem) (by simp)
      · exact hi.noRecWhenOpen hws id hrec hmem
    · intro id hrec hmem
      simp only [TimerSys.add, List.mem_cons] at hmem
      rcases hmem with hmem | hmem
      · exact absurd (congrArg Prod.snd hmem) (by simp)
      · exact hi.recOffline id hrec hmem
  | some cid =>
    simp only [scheduleConnectionTimeout, hct]
    refine { tinv := ?_, noRecWhenOpen := ?_, recOffline := ?_, onlineWs := hi.onlineWs }
    · have h1 := hi.tinv.clear_field (k := TimerKind.connectionTimeout)
        (c := cid) (by simp [fieldOf, hct])
      have h2 := h1.add_field (k := TimerKind.connectionTimeout) (by simp [updateFld])
      refine h2.congr ?_
      intro k
      cases k <;> simp [fieldOf, updateFld, TimerSys.clear]
    · intro hws id hrec hmem
      simp only [TimerSys.add, List.mem_cons] at hmem
      rcases hmem with hmem | hmem
      · exact absurd (congrArg Prod.snd hmem) (by simp)
      · exact hi.noRecWhenOpen hws id hrec ((mem_clear _ _ _).1 hmem).1
    · intro id hrec hmem
      simp only [TimerSys.add, List.mem_cons] at hmem
      rcases hmem with hmem | hmem
      · exact absurd (congrArg Prod.snd hmem) (by simp)
      · exact hi.recOffline id hrec ((mem_clear _ _ _).1 hmem).1

theorem Inv_scheduleReconnect {s : CCT} (hi : Inv s)
    (hws : s.ws ≠ some WsReady.opened) (ho : s.isOnline = false) :
    Inv (scheduleReconnect s) := by
  cases hrec : s.reconnectInterval with
  | some rid =>
    simp only [scheduleReconnect, hrec]
    exact hi
  | none =>
    simp only [scheduleReconnect, hrec]
    refine { tinv := ?_, noRecWhenOpen := ?_, recOffline := ?_, onlineWs := ?_ }
    · have h1 := hi.tinv.add_field (k := TimerKind.reconnect) (by simp [fieldOf, hrec])
      refine h1.congr ?_
      intro k
      cases k <;> simp [fieldOf, updateFld]
    · intro hws' id hrec' hmem
      exact absurd hws' hws
    · intro id hrec' hmem
      exact ho
    · intro h
      rw [ho] at h
      exact Bool.noConfusion h

theorem Inv_handleDisconnection {s : CCT} (htinv : TInv s.timers (fieldOf s))
    (hws : s.ws ≠ some WsReady.opened) :
    Inv (handleDisconnection s) := by
  unfold handleDisconnection
  cases hsc : s.statusCheckInterval with
  | none =>
    simp only [hsc]
    apply Inv_scheduleReconnect
    · apply Inv.of_sameCore (sameCore_updateNotResponding _)
      exact {
        tinv := htinv.congr (by intro k; cases k <;> simp [fieldOf, hsc])
        noRecWhenOpen := fun hws' => absurd hws' hws
        recOffline := fun id h1 h2 => rfl
        onlineWs := fun h => Bool.noConfusion h }
    · simpa [updateNotResponding] using hws
    · simp [updateNotResponding]
  | some scid =>
    simp only [hsc]
    apply Inv_scheduleReconnect
    · apply Inv.of_sameCore (sameCore_updateNotResponding _)
      refine { tinv := ?_, noRecWhenOpen := fun hws' => absurd hws' hws,
               recOffline := fun id h1 h2 => rfl,
               onlineWs := fun h => Bool.noConfusion h }
      have h1 := htinv.clear_field (k := TimerKind.statusCheck)
        (c := scid) (by simp [fieldOf, hsc])
      refine h1.congr ?_
      intro k
      cases k <;> simp [fieldOf, updateFld]
    · simpa [updateNotResponding] using hws
    · simp [updateNotResponding]

theorem sameCore_refl (s : CCT) : sameCore s s := ⟨rfl, rfl, rfl, rfl, rfl, rfl, rfl⟩

theorem Inv_connectWebSocket {s : CCT} (ok : Bool) (hi : Inv s)
    (ho : s.isOnline = false) : Inv (connectWebSocket ok s) := by
  unfold connectWebSocket
  cases hw : s.ws with
  | none =>
    simp only [hw]
    cases ok with
    | true =>
      rw [if_pos rfl]
      exact {
        tinv := hi.tinv.congr (by intro k; cases k <;> simp [fieldOf])
        noRecWhenOpen := by intro hws'; simp at hws'
        recOffline := fun id h1 h2 => ho
        onlineWs := fun h => absurd h (by rw [ho]; exact Bool.noConfusion) }
    | false =>
      rw [if_neg Bool.false_ne_true]
      exact Inv_handleDisconnection hi.tinv (by rw [hw]; exact Option.noConfusion)
  | some w =>
    simp only [hw]
    cases ok with
    | true =>
      rw [if_pos rfl]
      exact {
        tinv := hi.tinv.congr (by intro k; cases k <;> simp [fieldOf])
        noRecWhenOpen := by intro hws'; simp at hws'
        recOffline := fun id h1 h2 => ho
        onlineWs := fun h => absurd h (by rw [ho]; exact Bool.noConfusion) }
    | false =>
      rw [if_neg Bool.false_ne_true]
      refine Inv_handleDisconnection ?_ (by simp)
      exact hi.tinv.congr (by intro k; cases k <;> simp [fieldOf])

theorem Inv_openEffect {s : CCT} (hi : Inv s) : Inv (openEffect s) := by
  unfold openEffect
  apply Inv_scheduleConnectionTimeout
  refine Inv.of_sameCore (s :=
    (let s0 : CCT := { s with ws := some WsReady.opened }
     let s1 : CCT := match s0.reconnectInterval with
       | some id => { s0 with timers := s0.timers.clear id, reconnectInterval := none }
       | none => s0
     let s2 : CCT := match s1.statusCheckInterval with
       | some id => { s1 with timers := s1.timers.clear id }
       | none => s1
     let s3 : CCT := { s2 with timers := s2.timers.add TimerKind.statusCheck,
                               statusCheckInterval := some s2.timers.nextId }
     { s3 with isOnline := true })) ?_ ?_
  · refine sameCore_trans ?_ ⟨rfl, rfl, rfl, rfl, rfl, rfl, rfl⟩
    split
    · exact sameCore_sendState _
    · exact sameCore_refl _
  · cases hrec : s.reconnectInterval with
    | some rid =>
      cases hsc : s.statusCheckInterval with
      | some scid =>
        simp only [hrec, hsc]
        refine { tinv := ?_, noRecWhenOpen := ?_, recOffline := ?_,
                 onlineWs := fun _ => Or.inr rfl }
        · have h1 := hi.tinv.clear_field (k := TimerKind.reconnect)
            (c := rid) (by simp [fieldOf, hrec])
          have h2 := h1.clear_any scid
          have h3 := h2.add_field_cleared (k := TimerKind.statusCheck)
            (h1.no_live_after_clear (k := TimerKind.statusCheck) (c := scid)
              (by simp [updateFld, fieldOf, hsc]))
          refine h3.congr ?_
          intro k
          cases k <;> simp [fieldOf, updateFld, TimerSys.clear]
        · intro hws' id hrec' hmem
          simp at hrec'
        · intro id hrec' hmem
          simp at hrec'
      | none =>
        simp only [hrec, hsc]
        refine { tinv := ?_, noRecWhenOpen := ?_, recOffline := ?_,
                 onlineWs := fun _ => Or.inr rfl }
        · have h1 := hi.tinv.clear_field (k := TimerKind.reconnect)
            (c := rid) (by simp [fieldOf, hrec])
          have h3 := h1.add_field_cleared (k := TimerKind.statusCheck)
            (h1.no_live_of_none (k := TimerKind.statusCheck)
              (by simp [updateFld, fieldOf, hsc]))
          refine h3.congr ?_
          intro k
          cases k <;> simp [fieldOf, updateFld, TimerSys.clear]
        · intro hws' id hrec' hmem
          simp at hrec'
        · intro id hrec' hmem
          simp at hrec'
    | none =>
      cases hsc : s.statusCheckInterval with
      | some scid =>
        simp only [hrec, hsc]
        refine { tinv := ?_, noRecWhenOpen := ?_, recOffline := ?_,
                 onlineWs := fun _ => Or.inr rfl }
        · have h2 := hi.tinv.clear_any scid
          have h3 := h2.add_field_cleared (k := TimerKind.statusCheck)
            (hi.tinv.no_live_after_clear (k := TimerKind.statusCheck) (c := scid)
              (by simp [fieldOf, hsc]))
          refine h3.congr ?_
          intro k
          cases k <;> simp [fieldOf, updateFld, TimerSys.clear, hrec]
        · intro hws' id hrec' hmem
          simp at hrec'
        · intro id hrec' hmem
          simp at hrec'
      | none =>
        simp only [hrec, hsc]
        refine { tinv := ?_, noRecWhenOpen := ?_, recOffline := ?_,
                 onlineWs := fun _ => Or.inr rfl }
        · have h3 := hi.tinv.add_field_cleared (k := TimerKind.statusCheck)
            (hi.tinv.no_live_of_none (k := TimerKind.statusCheck)
              (by simp [fieldOf, hsc]))
          refine h3.congr ?_
          intro k
          cases k <;> simp [fieldOf, updateFld, hrec]
        · intro hws' id hrec' hmem
          simp at hrec'
        · intro id hrec' hmem
          simp at hrec'

theorem Inv_messageEffect {s : CCT} (f : Option Json) (hi : Inv s)
    (hws : s.ws = some WsReady.opened) : Inv (messageEffect f s) := by
  unfold messageEffect
  cases f with
  | none => exact hi
  | some v =>
    cases v with
    | null => exact hi
    | bool b => exact hi
    | num q => exact hi
    | str str => exact hi
    | arr elems => exact Inv_scheduleConnectionTimeout hi
    | obj fields =>
    dsimp only
    by_cases hstat : (objHasKey fields "hostname" && objHasKey fields "mac" &&
        objHasKey fields "firmwareVersion") = true
    · rw [if_pos hstat]
      cases hupd : updateAccessoryInfo fields s with
      | none => exact hi
      | some s1 =>
      apply Inv_scheduleConnectionTimeout
      have hcore := sameCore_updateAccessoryInfo hupd
      have h1 : Inv s1 := Inv.of_sameCore hcore hi
      have hws1 : s1.ws = some WsReady.opened := by
        rw [hcore.2.2.2.2.1]
        exact hws
      by_cases hon : s1.isOnline = false
      · rw [if_pos hon]
        refine { tinv := ?_, noRecWhenOpen := ?_, recOffline := ?_,
                 onlineWs := fun _ => Or.inr hws1 }
        · exact h1.tinv.congr (by intro k; cases k <;> simp [fieldOf])
        · intro hws' id hrec hmem
          exact h1.noRecWhenOpen hws1 id hrec hmem
        · intro id hrec hmem
          exact absurd hmem (h1.noRecWhenOpen hws1 id hrec)
      · rw [if_neg hon]
        exact h1
    · rw [if_neg hstat]
      exact Inv_scheduleConnectionTimeout hi

theorem Inv_destroyEffect {s : CCT} (hi : Inv s) : Inv (destroyEffect s) := by
  unfold destroyEffect
  cases hw : s.ws with
  | none =>
    simp only [hw]
    cases hrec : s.reconnectInterval with
    | none =>
      simp only [hrec]
      cases hsc : s.statusCheckInterval with
      | none =>
        simp only [hsc]
        refine { tinv := ?_, noRecWhenOpen := ?_, recOffline := ?_,
                 onlineWs := fun _ => Or.inl rfl }
        · exact hi.tinv.congr (by intro k; cases k <;> simp [fieldOf, hrec, hsc])
        · intro hws'
          simp [hw] at hws'
        · intro id h1 h2
          exfalso
          simp [hrec] at h1
      | some scid =>
        simp only [hsc]
        refine { tinv := ?_, noRecWhenOpen := ?_, recOffline := ?_,
                 onlineWs := fun _ => Or.inl rfl }
        · exact (hi.tinv.clear_any scid).congr
            (by intro k; cases k <;> simp [fieldOf, hrec, hsc])
        · intro hws'
          simp [hw] at hws'
        · intro id h1 h2
          exfalso
          simp [hrec] at h1
    | some rid =>
      simp only [hrec]
      cases hsc : s.statusCheckInterval with
      | none =>
        simp only [hsc]
        refine { tinv := ?_, noRecWhenOpen := ?_, recOffline := ?_,
                 onlineWs := fun _ => Or.inl rfl }
        · exact (hi.tinv.clear_any rid).congr
            (by intro k; cases k <;> simp [fieldOf, hrec, hsc])
        · intro hws'
          simp [hw] at hws'
        · intro id h1 h2
          exfalso
          simp only at h1
          have hid : id = rid := by simpa [hrec] using h1.symm
          subst hid
          exact ((mem_clear _ _ _).1 h2).2 rfl
      | some scid =>
        simp only [hsc]
        refine { tinv := ?_, noRecWhenOpen := ?_, recOffline := ?_,
                 onlineWs := fun _ => Or.inl rfl }
        · exact ((hi.tinv.clear_any rid).clear_any scid).congr
            (by intro k; cases k <;> simp [fieldOf, hrec, hsc])
        · intro hws'
          simp [hw] at hws'
        · intro id h1 h2
          exfalso
          simp only at h1
          have hid : id = rid := by simpa [hrec] using h1.symm
          subst hid
          exact ((mem_clear _ _ _).1 ((mem_clear _ _ _).1 h2).1).2 rfl
  | some w =>
    simp only [hw]
    cases hrec : s.reconnectInterval with
    | none =>
      simp only [hrec]
      cases hsc : s.statusCheckInterval with
      | none =>
        simp only [hsc]
        refine { tinv := ?_, noRecWhenOpen := ?_, recOffline := ?_,
                 onlineWs := fun _ => Or.inl rfl }
        · exact hi.tinv.congr (by intro k; cases k <;> simp [fieldOf, hrec, hsc])
        · intro hws'
          simp at hws'
        · intro id h1 h2
          exfalso
          simp [hrec] at h1
      | some scid =>
        simp only [hsc]
        refine { tinv := ?_, noRecWhenOpen := ?_, recOffline := ?_,
                 onlineWs := fun _ => Or.inl rfl }
        · exact (hi.tinv.clear_any scid).congr
            (by intro k; cases k <;> simp [fieldOf, hrec, hsc])
        · intro hws'
          simp at hws'
        · intro id h1 h2
          exfalso
          simp [hrec] at h1
    | some rid =>
      simp only [hrec]
      cases hsc : s.statusCheckInterval with
      | none =>
        simp only [hsc]
        refine { tinv := ?_, noRecWhenOpen := ?_, recOffline := ?_,
                 onlineWs := fun _ => Or.inl rfl }
        · exact (hi.tinv.clear_any rid).congr
            (by intro k; cases k <;> simp [fieldOf, hrec, hsc])
        · intro hws'
          simp at hws'
        · intro id h1 h2
          exfalso
          simp only at h1
          have hid : id = rid := by simpa using h1.symm
          subst hid
          exact ((mem_clear _ _ _).1 h2).2 rfl
      | some scid =>
        simp only [hsc]
        refine { tinv := ?_, noRecWhenOpen := ?_, recOffline := ?_,
                 onlineWs := fun _ => Or.inl rfl }
        · exact ((hi.tinv.clear_any rid).clear_any scid).congr
            (by intro k; cases k <;> simp [fieldOf, hrec, hsc])
        · intro hws'
          simp at hws'
        · intro id h1 h2
          exfalso
          simp only at h1
          have hid : id = rid := by simpa using h1.symm
          subst hid
          exact ((mem_clear _ _ _).1 ((mem_clear _ _ _).1 h2).1).2 rfl

theorem Inv_setOnEffect {s : CCT} (v : Bool) (hi : Inv s) : Inv (setOnEffect v s) := by
  unfold setOnEffect
  dsimp only
  split
  · refine Inv.of_sameCore (s := s) ?_ hi
    refine sameCore_trans (u := _) ?_ ⟨rfl, rfl, rfl, rfl, rfl, rfl, rfl⟩
    exact sameCore_trans (sameCore_saveState _) (sameCore_sendState _)
  · exact Inv.of_sameCore (s := s) (sameCore_saveState _) hi

theorem Inv_setBrightnessEffect {s : CCT} (v : Rat) (hi : Inv s) :
    Inv (setBrightnessEffect v s) := by
  unfold setBrightnessEffect
  dsimp only
  split
  · exact Inv.of_sameCore (s := s)
      (sameCore_trans (sameCore_saveState _) (sameCore_sendState _)) hi
  · exact Inv.of_sameCore (s := s) (sameCore_saveState _) hi

theorem Inv_setColorTemperatureEffect {s : CCT} (v : Rat) (hi : Inv s) :
    Inv (setColorTemperatureEffect v s) := by
  unfold setColorTemperatureEffect
  dsimp only
  split
  · exact Inv.of_sameCore (s := s)
      (sameCore_trans (sameCore_saveState _) (sameCore_sendState _)) hi
  · exact Inv.of_sameCore (s := s) (sameCore_saveState _) hi

theorem Inv_initState (rs : Bool) (cached : Option AccessoryState) (ok : Bool) :
    Inv (initState rs cached ok) := by
  unfold initState
  dsimp only
  apply Inv.of_sameCore (sameCore_updateNotResponding _)
  apply Inv_connectWebSocket
  · refine { tinv := ?_, noRecWhenOpen := ?_, recOffline := ?_, onlineWs := ?_ }
    · exact {
        fresh := by intro p hp; simp at hp
        nodup := by simp
        track := by intro p hp; simp at hp
        kindOf := by intro k id hf; cases k <;> simp [fieldOf] at hf
        fieldLt := by intro k id hf; cases k <;> simp [fieldOf] at hf }
    · intro h id hrec
      simp at hrec
    · intro id hrec
      simp at hrec
    · intro h
      simp at h
  · rfl

theorem Inv_step {s s' : CCT} (e : Event) (hi : Inv s) (h : stepFn e s = some s') :
    Inv s' := by
  cases e with
  | wsOpen =>
    simp only [stepFn] at h
    split at h
    · exact (Option.some.inj h) ▸ Inv_openEffect hi
    · exact Option.noConfusion h
  | wsMessage f =>
    simp only [stepFn] at h
    by_cases hws : s.ws = some WsReady.opened
    · rw [if_pos hws] at h
      exact (Option.some.inj h) ▸ Inv_messageEffect f hi hws
    · rw [if_neg hws] at h
      exact Option.noConfusion h
  | wsClose =>
    simp only [stepFn] at h
    cases hw : s.ws with
    | none =>
      rw [hw] at h
      exact Option.noConfusion h
    | some w =>
      rw [hw] at h
      refine (Option.some.inj h) ▸ Inv_handleDisconnection ?_ (by simp)
      exact hi.tinv.congr (by intro k; cases k <;> simp [fieldOf])
  | wsError =>
    simp only [stepFn] at h
    cases hw : s.ws with
    | none =>
      rw [hw] at h
      exact Option.noConfusion h
    | some w =>
      rw [hw] at h
      refine (Option.some.inj h) ▸ Inv_handleDisconnection ?_ (by simp)
      exact hi.tinv.congr (by intro k; cases k <;> simp [fieldOf])
  | reconnectTick ok =>
    simp only [stepFn] at h
    cases hrec : s.reconnectInterval with
    | none =>
      rw [hrec] at h
      exact Option.noConfusion h
    | some id =>
      rw [hrec] at h
      dsimp only at h
      by_cases hmem : (id, TimerKind.reconnect) ∈ s.timers.live
      · rw [if_pos hmem] at h
        exact (Option.some.inj h) ▸
          Inv_connectWebSocket ok hi (hi.recOffline id hrec hmem)
      · rw [if_neg hmem] at h
        exact Option.noConfusion h
  | statusTick =>
    simp only [stepFn] at h
    cases hsc : s.statusCheckInterval with
    | none =>
      rw [hsc] at h
      exact Option.noConfusion h
    | some id =>
      rw [hsc] at h
      dsimp only at h
      by_cases hmem : (id, TimerKind.statusCheck) ∈ s.timers.live
      · rw [if_pos hmem] at h
        exact (Option.some.inj h) ▸ Inv.of_sameCore (sameCore_checkStatus s) hi
      · rw [if_neg hmem] at h
        exact Option.noConfusion h
  | timeoutFire =>
    simp only [stepFn] at h
    cases hct : s.connectionTimeout with
    | none =>
      rw [hct] at h
      exact Option.noConfusion h
    | some id =>
      rw [hct] at h
      dsimp only at h
      by_cases hmem : (id, TimerKind.connectionTimeout) ∈ s.timers.live
      · rw [if_pos hmem] at h
        refine (Option.some.inj h) ▸ ?_
        unfold connectionTimeoutHandler
        cases hw : s.ws with
        | none =>
          simp only [hw]
          refine Inv_handleDisconnection ?_ (by simp)
          exact (hi.tinv.clear_any id).congr (by intro k; cases k <;> simp [fieldOf, hct])
        | some w =>
          simp only [hw]
          refine Inv_handleDisconnection ?_ (by simp)
          exact (hi.tinv.clear_any id).congr (by intro k; cases k <;> simp [fieldOf, hct])
      · rw [if_neg hmem] at h
        exact Option.noConfusion h
  | setOn v =>
    exact (Option.some.inj h) ▸ Inv_setOnEffect v hi
  | setBrightness v =>
    exact (Option.some.inj h) ▸ Inv_setBrightnessEffect v hi
  | setColorTemperature v =>
    exact (Option.some.inj h) ▸ Inv_setColorTemperatureEffect v hi
  | destroy =>
    exact (Option.some.inj h) ▸ Inv_destroyEffect hi

theorem Inv_reachable {s : CCT} (h : Reachable s) : Inv s := by
  induction h with
  | init rs cached ok => exact Inv_initState rs cached ok
  | step s e s' hr hstep ih => exact Inv_step e ih hstep

theorem timerCount_le_one {s : CCT} (hi : Inv s) (k : TimerKind) : timerCount s k ≤ 1 := by
  unfold timerCount
  cases hf : fieldOf s k with
  | none =>
    have hnil : s.timers.live.filter (fun p => decide (p.2 = k)) = [] := by
      rw [List.filter_eq_nil_iff]
      intro p hp
      simp only [decide_eq_true_eq]
      intro hpk
      have htr := hi.tinv.track p hp
      rw [hpk, hf] at htr
      exact Option.noConfusion htr
    simp [hnil]
  | some c =>
    apply filter_kind_len_le_one _ _ c hi.tinv.nodup
    intro p hp hpk
    have htr := hi.tinv.track p hp
    rw [hpk, hf] at htr
    exact (Option.some.inj htr).symm

/-! ### Projection lemmas for the effects -/

theorem scheduleConnectionTimeout_proj (s : CCT) :
    (scheduleConnectionTimeout s).sent = s.sent ∧
    (scheduleConnectionTimeout s).isOnline = s.isOnline ∧
    (scheduleConnectionTimeout s).ws = s.ws ∧
    (scheduleConnectionTimeout s).states = s.states ∧
    (scheduleConnectionTimeout s).serialNumber = s.serialNumber ∧
    (scheduleConnectionTimeout s).firmwareRevision = s.firmwareRevision ∧
    (scheduleConnectionTimeout s).nameChar = s.nameChar ∧
    (scheduleConnectionTimeout s).lastStatus = s.lastStatus ∧
    (scheduleConnectionTimeout s).onChar = s.onChar := by
  cases h : s.connectionTimeout <;>
    simp [scheduleConnectionTimeout, h]

theorem scheduleConnectionTimeout_arms (s : CCT) :
    (scheduleConnectionTimeout s).connectionTimeout = some s.timers.nextId ∧
    (s.timers.nextId, TimerKind.connectionTimeout) ∈ (scheduleConnectionTimeout s).timers.live ∧
    (scheduleConnectionTimeout s).timers.nextId = s.timers.nextId + 1 := by
  cases h : s.connectionTimeout <;>
    simp [scheduleConnectionTimeout, h, TimerSys.add, TimerSys.clear]

theorem sendState_sent_online (s : CCT) (hon : s.isOnline = true)
    (hws : s.ws = some WsReady.opened) :
    (sendState s).sent = s.sent ++ [calculateHexValue s.states] := by
  unfold sendState sendMessage
  rw [hon]
  simp [hws]

/-- The open handler transmits the restore frame (when configured) and sets
`isOnline`; nothing else it does touches the send log. -/
theorem openEffect_proj (s : CCT) :
    (openEffect s).sent =
      s.sent ++ (if s.restoreState then [calculateHexValue s.states] else []) ∧
    (openEffect s).isOnline = true ∧
    (openEffect s).ws = some WsReady.opened := by
  cases hrec : s.reconnectInterval <;> cases hsc : s.statusCheckInterval <;>
    (unfold openEffect
     dsimp only
     simp only [hrec, hsc]
     rw [(scheduleConnectionTimeout_proj _).1, (scheduleConnectionTimeout_proj _).2.1,
         (scheduleConnectionTimeout_proj _).2.2.1]
     cases hrs : s.restoreState <;> simp [hrs, sendState, sendMessage])

/-! ### Claim theorems for the connection state machine -/

/-- C1: on every `open` transition (Connecting becoming Online), when
`restoreState` is true the accessory transmits exactly one frame — the
encoding of the current DesiredState — during the transition itself, hence
before any hub-initiated set-request can be processed; when `restoreState`
is false no state frame is pushed by the transition. -/
theorem C1_restore_on_open (s s' : CCT) (h : stepFn Event.wsOpen s = some s') :
    s'.isOnline = true ∧
    s'.sent = s.sent ++ (if s.restoreState then [calculateHexValue s.states] else []) := by
  simp only [stepFn] at h
  split at h
  · obtain rfl : openEffect s = s' := Option.some.inj h
    obtain ⟨h1, h2, h3⟩ := openEffect_proj s
    exact ⟨h2, h1⟩
  · exact Option.noConfusion h

/-- Witness for C1 at the spec scenario: `restoreOnReconnect = true` and
DesiredState `(on, 50, 300)` held while disconnected; the open transition
transmits exactly the single frame `"#0b2600"`. -/
theorem C1_restore_on_open_witness :
    ((openEffect (initState true (some { On := true, Brightness := 50, ColorTemperature := 300 }) true)).isOnline = true ∧
     (openEffect (initState true (some { On := true, Brightness := 50, ColorTemperature := 300 }) true)).sent =
       (initState true (some { On := true, Brightness := 50, ColorTemperature := 300 }) true).sent ++
         (if (initState true (some { On := true, Brightness := 50, ColorTemperature := 300 }) true).restoreState then
            [calculateHexValue (initState true (some { On := true, Brightness := 50, ColorTemperature := 300 }) true).states]
          else [])) ∧
    (initState true (some { On := true, Brightness := 50, ColorTemperature := 300 }) true).sent = [] ∧
    (initState true (some { On := true, Brightness := 50, ColorTemperature := 300 }) true).restoreState = true ∧
    (initState true (some { On := true, Brightness := 50, ColorTemperature := 300 }) true).states =
      { On := true, Brightness := 50, ColorTemperature := 300 } := by
  refine ⟨C1_restore_on_open _ _ rfl, rfl, rfl, rfl⟩

/-- C8: in every reachable state at most one reconnect timer, one
status-poll timer and one activity-timeout timer is pending, and a
reconnect request while one is already pending is suppressed
(`scheduleReconnect` is the identity). -/
theorem C8_timer_uniqueness (s : CCT) (h : Reachable s) :
    timerCount s TimerKind.reconnect ≤ 1 ∧
    timerCount s TimerKind.statusCheck ≤ 1 ∧
    timerCount s TimerKind.connectionTimeout ≤ 1 ∧
    (s.reconnectInterval ≠ none → scheduleReconnect s = s) := by
  have hi := Inv_reachable h
  refine ⟨timerCount_le_one hi _, timerCount_le_one hi _, timerCount_le_one hi _, ?_⟩
  intro hne
  unfold scheduleReconnect
  cases hrec : s.reconnectInterval with
  | none => exact absurd hrec hne
  | some rid => rfl

/-- Witness for C8 at the freshly constructed accessory state. -/
theorem C8_timer_uniqueness_witness :
    timerCount (initState false none true) TimerKind.reconnect ≤ 1 ∧
    timerCount (initState false none true) TimerKind.statusCheck ≤ 1 ∧
    timerCount (initState false none true) TimerKind.connectionTimeout ≤ 1 ∧
    ((initState false none true).reconnectInterval ≠ none →
      scheduleReconnect (initState false none true) = initState false none true) :=
  C8_timer_uniqueness (initState false none true) (Reachable.init false none true)

theorem setBrightnessEffect_spec (s : CCT) (hws : s.isOnline = true → s.ws = some WsReady.opened)
    (v : Rat) :
    (setBrightnessEffect v s).states = { s.states with Brightness := v } ∧
    (setBrightnessEffect v s).contextState = (setBrightnessEffect v s).states ∧
    (setBrightnessEffect v s).sent = s.sent ++
      (if s.isOnline then [calculateHexValue { s.states with Brightness := v }] else []) := by
  unfold setBrightnessEffect saveState
  dsimp only
  cases hon : s.isOnline with
  | false => simp [hon]
  | true => simp [hon, sendState, sendMessage, hws hon]

theorem setOnEffect_spec (s : CCT) (hws : s.isOnline = true → s.ws = some WsReady.opened)
    (b : Bool) :
    (setOnEffect b s).states = { s.states with On := b } ∧
    (setOnEffect b s).contextState = (setOnEffect b s).states ∧
    (setOnEffect b s).sent = s.sent ++
      (if s.isOnline then [calculateHexValue { s.states with On := b }] else []) := by
  unfold setOnEffect saveState
  dsimp only
  cases hon : s.isOnline with
  | false => simp [hon]
  | true => simp [hon, sendState, sendMessage, hws hon]

theorem setColorTemperatureEffect_spec (s : CCT)
    (hws : s.isOnline = true → s.ws = some WsReady.opened) (v : Rat) :
    (setColorTemperatureEffect v s).states = { s.states with ColorTemperature := v } ∧
    (setColorTemperatureEffect v s).contextState = (setColorTemperatureEffect v s).states ∧
    (setColorTemperatureEffect v s).sent = s.sent ++
      (if s.isOnline then [calculateHexValue { s.states with ColorTemperature := v }] else []) := by
  unfold setColorTemperatureEffect saveState
  dsimp only
  cases hon : s.isOnline with
  | false => simp [hon]
  | true => simp [hon, sendState, sendMessage, hws hon]

/-- C2: in every reachable, not-yet-destroyed state, each set operation
mutates exactly its DesiredState field and persists the whole record
unconditionally, and appends exactly one frame to the send log if and only
if the link is currently online (`isOnline`, which in such states coincides
with the socket being open); offline requests are neither transmitted nor
queued — the send log is left untouched. -/
theorem C2_set_operations (s : CCT) (hr : Reachable s) (hd : s.destroyed = false)
    (v w : Rat) (b : Bool) :
    (stepFn (Event.setBrightness v) s = some (setBrightnessEffect v s)) ∧
    (setBrightnessEffect v s).states = { s.states with Brightness := v } ∧
    (setBrightnessEffect v s).contextState = (setBrightnessEffect v s).states ∧
    (setBrightnessEffect v s).sent = s.sent ++
      (if s.isOnline then [calculateHexValue { s.states with Brightness := v }] else []) ∧
    (stepFn (Event.setOn b) s = some (setOnEffect b s)) ∧
    (setOnEffect b s).states = { s.states with On := b } ∧
    (setOnEffect b s).contextState = (setOnEffect b s).states ∧
    (setOnEffect b s).sent = s.sent ++
      (if s.isOnline then [calculateHexValue { s.states with On := b }] else []) ∧
    (stepFn (Event.setColorTemperature w) s = some (setColorTemperatureEffect w s)) ∧
    (setColorTemperatureEffect w s).states = { s.states with ColorTemperature := w } ∧
    (setColorTemperatureEffect w s).contextState = (setColorTemperatureEffect w s).states ∧
    (setColorTemperatureEffect w s).sent = s.sent ++
      (if s.isOnline then [calculateHexValue { s.states with ColorTemperature := w }] else []) := by
  have hi := Inv_reachable hr
  have hws : s.isOnline = true → s.ws = some WsReady.opened := by
    intro hon
    rcases hi.onlineWs hon with hdes | hopen
    · rw [hd] at hdes
      exact Bool.noConfusion hdes
    · exact hopen
  obtain ⟨b1, b2, b3⟩ := setBrightnessEffect_spec s hws v
  obtain ⟨o1, o2, o3⟩ := setOnEffect_spec s hws b
  obtain ⟨c1, c2, c3⟩ := setColorTemperatureEffect_spec s hws w
  exact ⟨rfl, b1, b2, b3, rfl, o1, o2, o3, rfl, c1, c2, c3⟩

/-- Witness for C2 at the freshly constructed (offline) accessory: the
fields mutate and persist, and nothing is transmitted. -/
theorem C2_set_operations_witness :
    (stepFn (Event.setBrightness 42) (initState false none true) =
      some (setBrightnessEffect 42 (initState false none true))) ∧
    (setBrightnessEffect 42 (initState false none true)).states =
      { (initState false none true).states with Brightness := 42 } ∧
    (setBrightnessEffect 42 (initState false none true)).contextState =
      (setBrightnessEffect 42 (initState false none true)).states ∧
    (setBrightnessEffect 42 (initState false none true)).sent =
      (initState false none true).sent ++
        (if (initState false none true).isOnline then
          [calculateHexValue { (initState false none true).states with Brightness := 42 }]
         else []) ∧
    (stepFn (Event.setOn true) (initState false none true) =
      some (setOnEffect true (initState false none true))) ∧
    (setOnEffect true (initState false none true)).states =
      { (initState false none true).states with On := true } ∧
    (setOnEffect true (initState false none true)).contextState =
      (setOnEffect true (initState false none true)).states ∧
    (setOnEffect true (initState false none true)).sent =
      (initState false none true).sent ++
        (if (initState false none true).isOnline then
          [calculateHexValue { (initState false none true).states with On := true }]
         else []) ∧
    (stepFn (Event.setColorTemperature 200) (initState false none true) =
      some (setColorTemperatureEffect 200 (initState false none true))) ∧
    (setColorTemperatureEffect 200 (initState false none true)).states =
      { (initState false none true).states with ColorTemperature := 200 } ∧
    (setColorTemperatureEffect 200 (initState false none true)).contextState =
      (setColorTemperatureEffect 200 (initState false none true)).states ∧
    (setColorTemperatureEffect 200 (initState false none true)).sent =
      (initState false none true).sent ++
        (if (initState false none true).isOnline then
          [calculateHexValue { (initState false none true).states with ColorTemperature := 200 }]
         else []) :=
  C2_set_operations (initState false none true) (Reachable.init false none true) rfl 42 200 true

theorem messageEffect_status (s : CCT) (fields : List (String × Json))
    (hstat : isStatusResponse (Json.obj fields) = true)
    (hfw : firmwareToStringThrows fields = false) :
    (messageEffect (some (Json.obj fields)) s).serialNumber = objGet fields "mac" ∧
    (messageEffect (some (Json.obj fields)) s).firmwareRevision =
      objGet fields "firmwareVersion" ∧
    (messageEffect (some (Json.obj fields)) s).nameChar = objGet fields "hostname" ∧
    (messageEffect (some (Json.obj fields)) s).lastStatus = some (Json.obj fields) ∧
    (messageEffect (some (Json.obj fields)) s).isOnline = true ∧
    (s.isOnline = false →
      (messageEffect (some (Json.obj fields)) s).onChar = some (CharPush.val s.states.On)) := by
  simp only [isStatusResponse] at hstat
  unfold messageEffect
  dsimp only
  rw [if_pos hstat]
  simp only [updateAccessoryInfo, hfw]
  cases hct : s.connectionTimeout <;> cases hon : s.isOnline <;>
    simp [hon, hct, scheduleConnectionTimeout]

theorem messageEffect_status_throws (s : CCT) (fields : List (String × Json))
    (hstat : isStatusResponse (Json.obj fields) = true)
    (hfw : firmwareToStringThrows fields = true) :
    messageEffect (some (Json.obj fields)) s = s := by
  simp only [isStatusResponse] at hstat
  unfold messageEffect
  dsimp only
  rw [if_pos hstat]
  simp only [updateAccessoryInfo, hfw, if_pos]

/-- C5 as amended: a frame is treated as a status response exactly when it
parses to a JSON object carrying all three of `hostname`, `mac` and
`firmwareVersion`. Receiving one whose `firmwareVersion` value is not JSON
null (so the `toString()` inside `updateAccessoryInfo` does not throw)
updates the cached metadata (serial from `mac`, firmware from
`firmwareVersion`, name from `hostname`), leaves the device online, and —
when it was previously considered offline — flips `isOnline` to true and
refreshes the `On` characteristic from DesiredState. When `firmwareVersion`
is JSON null the `toString()` throws into the handler `catch` and the frame
has no effect at all: no metadata update, no responding flip, and no
activity-timeout re-arm. -/
theorem C5_status_response (s : CCT) (f : Option Json) (s' : CCT)
    (h : stepFn (Event.wsMessage f) s = some s') :
    (∀ v, f = some v →
      (isStatusResponse v = true ↔ ∃ fields, v = Json.obj fields ∧
        objHasKey fields "hostname" = true ∧ objHasKey fields "mac" = true ∧
        objHasKey fields "firmwareVersion" = true)) ∧
    (∀ fields, f = some (Json.obj fields) → isStatusResponse (Json.obj fields) = true →
      firmwareToStringThrows fields = false →
      s'.serialNumber = objGet fields "mac" ∧
      s'.firmwareRevision = objGet fields "firmwareVersion" ∧
      s'.nameChar = objGet fields "hostname" ∧
      s'.lastStatus = some (Json.obj fields) ∧
      s'.isOnline = true ∧
      (s.isOnline = false → s'.onChar = some (CharPush.val s.states.On))) ∧
    (∀ fields, f = some (Json.obj fields) → isStatusResponse (Json.obj fields) = true →
      firmwareToStringThrows fields = true → s' = s) := by
  simp only [stepFn] at h
  by_cases hws : s.ws = some WsReady.opened
  · rw [if_pos hws] at h
    obtain rfl : messageEffect f s = s' := Option.some.inj h
    refine ⟨?_, ?_, ?_⟩
    · intro v hv
      cases v <;> simp [isStatusResponse, Bool.and_eq_true, and_assoc]
    · intro fields hf hstat hfw
      subst hf
      exact messageEffect_status s fields hstat hfw
    · intro fields hf hstat hfw
      subst hf
      exact messageEffect_status_throws s fields hstat hfw
  · rw [if_neg hws] at h
    exact Option.noConfusion h

/-- A concrete freshly-opened accessory state (no restore, no cache). -/
def c3state : CCT := openEffect (initState false none true)

/-- Counterexample to C3 as stated: while online, a frame that does not
parse as JSON is processed as a no-op — the state, and in particular the
pending activity-timeout timer, is completely unchanged — whereas actually
re-arming the timeout is observable (it consumes a fresh timer id). -/
theorem C3_counterexample :
    stepFn (Event.wsMessage none) c3state = some c3state ∧
    (scheduleConnectionTimeout c3state).timers.nextId = c3state.timers.nextId + 1 ∧
    (messageEffect none c3state).timers.nextId = c3state.timers.nextId := by
  refine ⟨rfl, ?_, rfl⟩
  exact (scheduleConnectionTimeout_arms c3state).2.2

/-- C3 as amended: while online, a frame that fails `JSON.parse`, or parses
to a JSON primitive (on which the status-field membership test throws — the
`catch` swallows both), is ignored without re-arming the activity timeout;
a JSON object or array frame that is not a status payload is ignored but
does re-arm the activity timeout for a full window, leaving the connection
state, the send log and the DesiredState untouched. -/
theorem C3_amended_liveness (s : CCT) (f : Option Json) (s' : CCT)
    (h : stepFn (Event.wsMessage f) s = some s') :
    (f = none → s' = s) ∧
    (∀ v, f = some v → jsonPrimitive v = true → s' = s) ∧
    (∀ v, f = some v → jsonPrimitive v = false → isStatusResponse v = false →
      s'.connectionTimeout = some s.timers.nextId ∧
      (s.timers.nextId, TimerKind.connectionTimeout) ∈ s'.timers.live ∧
      s'.timers.nextId = s.timers.nextId + 1 ∧
      s'.isOnline = s.isOnline ∧ s'.ws = s.ws ∧ s'.sent = s.sent ∧
      s'.states = s.states) := by
  simp only [stepFn] at h
  by_cases hws : s.ws = some WsReady.opened
  · rw [if_pos hws] at h
    obtain rfl : messageEffect f s = s' := Option.some.inj h
    refine ⟨?_, ?_, ?_⟩
    · intro hf
      subst hf
      rfl
    · intro v hf hprim
      subst hf
      cases v <;> simp [jsonPrimitive] at hprim <;> rfl
    · intro v hf hprim hstat
      subst hf
      obtain ⟨harm1, harm2, harm3⟩ := scheduleConnectionTimeout_arms s
      obtain ⟨hp1, hp2, hp3, hp4, -⟩ := scheduleConnectionTimeout_proj s
      cases v with
      | null => simp [jsonPrimitive] at hprim
      | bool b => simp [jsonPrimitive] at hprim
      | num q => simp [jsonPrimitive] at hprim
      | str str => simp [jsonPrimitive] at hprim
      | arr elems =>
        exact ⟨harm1, harm2, harm3, hp2, hp3, hp1, hp4⟩
      | obj fields =>
        simp only [isStatusResponse] at hstat
        unfold messageEffect
        dsimp only
        rw [if_neg (by rw [hstat]; exact Bool.noConfusion)]
        exact ⟨harm1, harm2, harm3, hp2, hp3, hp1, hp4⟩
  · rw [if_neg hws] at h
    exact Option.noConfusion h

/-- Witness for the amended C3: a JSON object without the status fields,
received in the freshly-opened state, re-arms the activity timeout with the
fresh timer id. -/
theorem C3_amended_liveness_witness :
    (messageEffect (some (Json.obj [])) c3state).connectionTimeout =
      some c3state.timers.nextId ∧
    (c3state.timers.nextId, TimerKind.connectionTimeout) ∈
      (messageEffect (some (Json.obj [])) c3state).timers.live ∧
    (messageEffect (some (Json.obj [])) c3state).timers.nextId =
      c3state.timers.nextId + 1 := by
  obtain ⟨-, -, h3⟩ := C3_amended_liveness c3state (some (Json.obj [])) _ rfl
  obtain ⟨h1, h2, h3, -⟩ := h3 (Json.obj []) rfl (by decide) (by decide)
  exact ⟨h1, h2, h3⟩

/-- The accessory state after `destroy()` runs on a freshly-opened link. -/
def c4state : CCT := destroyEffect (openEffect (initState false none true))

/-- C4 is a code bug: after `destroy()` on a state with a pending activity
timeout, the reconnect and status-poll timers are cancelled and the socket
is closed, but the activity-timeout timer is still pending — `destroy()`
never clears `connectionTimeout` — and when it later fires it schedules a
reconnect, resurrecting the destroyed accessory. A second `destroy()` is
still accepted (the operation is total). -/
theorem C4_destroy_leaves_timeout :
    stepFn Event.destroy (openEffect (initState false none true)) = some c4state ∧
    c4state.ws = some WsReady.closed ∧
    c4state.destroyed = true ∧
    timerCount c4state TimerKind.reconnect = 0 ∧
    timerCount c4state TimerKind.statusCheck = 0 ∧
    timerCount c4state TimerKind.connectionTimeout = 1 ∧
    stepFn Event.destroy c4state = some (destroyEffect c4state) := by
  refine ⟨rfl, by decide, by decide, by decide, by decide, by decide, rfl⟩

/-- The spec scenario status payload. -/
def c5fields : List (String × Json) :=
  [("hostname", Json.str "lamp1"), ("mac", Json.str "AA:BB:CC"),
   ("firmwareVersion", Json.num 1000203)]

/-- A concrete freshly-opened accessory state for the C5 witness. -/
def c5state : CCT := openEffect (initState false none true)

/-- Witness for C5 at the spec scenario frame: the cached metadata updates
to the received values. -/
theorem C5_status_response_witness :
    (messageEffect (some (Json.obj c5fields)) c5state).serialNumber =
      some (Json.str "AA:BB:CC") ∧
    (messageEffect (some (Json.obj c5fields)) c5state).firmwareRevision =
      some (Json.num 1000203) ∧
    (messageEffect (some (Json.obj c5fields)) c5state).nameChar =
      some (Json.str "lamp1") ∧
    (messageEffect (some (Json.obj c5fields)) c5state).lastStatus =
      some (Json.obj c5fields) ∧
    (messageEffect (some (Json.obj c5fields)) c5state).isOnline = true := by
  obtain ⟨-, h2, -⟩ := C5_status_response c5state (some (Json.obj c5fields)) _ rfl
  obtain ⟨hs, hf, hn, hl, ho, -⟩ := h2 c5fields rfl (by decide) (by decide)
  rw [hs, hf, hn]
  exact ⟨rfl, rfl, rfl, hl, ho⟩

/-- The spec scenario payload with a JSON-null `firmwareVersion`: still
status-classified, but the `toString()` inside `updateAccessoryInfo`
throws on it. -/
def c5nullFields : List (String × Json) :=
  [("hostname", Json.str "lamp1"), ("mac", Json.str "AA:BB:CC"),
   ("firmwareVersion", Json.null)]

/-- Counterexample to C5 as stated: this frame is classified as a status
response (all three fields are present), yet receiving it in the
freshly-opened state changes nothing — the step is the identity, so the
cached serial number stays unset instead of becoming the received `mac`
value, and the activity timeout is not re-armed — because
`status.firmwareVersion.toString()` throws on the null value before any
write and the handler `catch` swallows the error. -/
theorem C5_counterexample :
    isStatusResponse (Json.obj c5nullFields) = true ∧
    objGet c5nullFields "mac" = some (Json.str "AA:BB:CC") ∧
    stepFn (Event.wsMessage (some (Json.obj c5nullFields))) c5state = some c5state ∧
    c5state.serialNumber = none ∧
    (messageEffect (some (Json.obj c5nullFields)) c5state).timers.nextId =
      c5state.timers.nextId := by
  exact ⟨by decide, rfl, rfl, rfl, rfl⟩

/-! ### C9 — the constructor of the reference iteration

The class of the reference iteration defines the methods below; `getOn` is
commented out in the source while the constructor still evaluates
`this.getOn.bind(this)`, so in JavaScript the member access yields
`undefined` and the `.bind` call throws a `TypeError`. The constructor is
modelled as its sequence of side-effecting steps in source order; a
`bindHandler` step fails when the named method is not defined on the
class. -/

/-- The methods defined on the reference iteration of `CCTDownlighter`
class (`getOn` is commented out and therefore absent). -/
def cctMethodNames : List String :=
  ["loadCachedState", "saveState", "updateAccessoryInfo", "updateNotResponding",
   "calculateHexValue", "sendMessage", "checkStatus", "sendState",
   "connectWebSocket", "handleDisconnection", "scheduleReconnect",
   "scheduleConnectionTimeout", "setOn", "setBrightness", "getBrightness",
   "setColorTemperature", "getColorTemperature", "destroy"]

/-- One step of the constructor body. -/
inductive CtorStep where
  | readRestoreState : CtorStep
  | loadCachedState : CtorStep
  | setupService : CtorStep
  | bindHandler (method : String) : CtorStep
  | connectWebSocket : CtorStep
  | updateNotResponding : CtorStep
deriving DecidableEq

/-- The constructor body of the reference iteration, in source order:
read `restore_state`, load the cached state, set up the Lightbulb service,
register `onSet`/`onGet` handlers for On, Brightness and ColorTemperature,
connect, then mark not responding. -/
def constructorSequence : List CtorStep :=
  [CtorStep.readRestoreState, CtorStep.loadCachedState, CtorStep.setupService,
   CtorStep.bindHandler "setOn", CtorStep.bindHandler "getOn",
   CtorStep.bindHandler "setBrightness", CtorStep.bindHandler "getBrightness",
   CtorStep.bindHandler "setColorTemperature", CtorStep.bindHandler "getColorTemperature",
   CtorStep.connectWebSocket, CtorStep.updateNotResponding]

/-- A constructor step throws exactly when it binds a method that the class
does not define (`undefined.bind` is a `TypeError`). -/
def ctorStepThrows (st : CtorStep) : Bool :=
  match st with
  | CtorStep.bindHandler m => !(cctMethodNames.contains m)
  | _ => false

/-- Run the constructor steps in order, stopping at the first throwing
step; returns the steps that executed and the step that threw, if any.
Nothing here depends on the device configuration: `restore_state` and the
cached state are read by steps that always succeed. -/
def runConstructor : List CtorStep → List CtorStep × Option CtorStep
  | [] => ([], none)
  | st :: rest =>
    if ctorStepThrows st then ([], some st)
    else
      let r := runConstructor rest
      (st :: r.1, r.2)

/-- C9: constructing the reference iteration of `CCTDownlighter` always
throws a `TypeError` at the `onGet` registration of the `On` characteristic
(`this.getOn.bind(this)` with `getOn` commented out of the class), before
`connectWebSocket` — and hence before any connection attempt — for every
device configuration (no step preceding the failure reads the
configuration in a way that could avoid it). -/
theorem C9_constructor_throws :
    (runConstructor constructorSequence).2 = some (CtorStep.bindHandler "getOn") ∧
    CtorStep.connectWebSocket ∉ (runConstructor constructorSequence).1 ∧
    (runConstructor constructorSequence).1 =
      [CtorStep.readRestoreState, CtorStep.loadCachedState, CtorStep.setupService,
       CtorStep.bindHandler "setOn"] := by
  refine ⟨?_, ?_, ?_⟩ <;> decide

/-! ### C10 — `restore_state` is dropped for newly added devices -/

/-- A device entry of the platform config (`DeviceConfig` in
`platform.ts`). -/
structure DeviceConfig where
  name : String
  device_type : String
  ip : String
  restore_state : Bool

/-- The object stored in `accessory.context.device`; `restore_state` is
`none` when the branch does not write the property at all. -/
structure DeviceContext where
  name : String
  type : String
  ip : String
  restore_state : Option Bool

/-- `discoverDevices`, new-accessory branch: stores only
`name`, `type` and `ip` — `restore_state` is omitted. -/
def newAccessoryContext (d : DeviceConfig) : DeviceContext :=
  { name := d.name, type := d.device_type, ip := d.ip, restore_state := none }

/-- `discoverDevices`, existing-accessory branch: stores `restore_state`
as well. -/
def existingAccessoryContext (d : DeviceConfig) : DeviceContext :=
  { name := d.name, type := d.device_type, ip := d.ip,
    restore_state := some d.restore_state }

/-- The read performed by the accessory constructor:
`accessory.context.device.restore_state ?? false`. -/
def readRestoreState (ctx : DeviceContext) : Bool :=
  ctx.restore_state.getD false

/-- C10: for a newly added device the stored context omits `restore_state`,
so the `?? false` read in the accessory makes `restoreOnReconnect` false no
matter what was configured, while the restored-from-cache branch preserves
the configured value. -/
theorem C10_new_device_restore_state_dropped (d : DeviceConfig) :
    (newAccessoryContext d).restore_state = none ∧
    readRestoreState (newAccessoryContext d) = false ∧
    readRestoreState (existingAccessoryContext d) = d.restore_state := by
  exact ⟨rfl, rfl, rfl⟩

end SternetSmart
